import Mathlib

/-
  Verification of the edge event-pipeline SDK core:
  the MQTT export sender (package transforms) and the message-bus
  subscription trigger (package messagebus).

  Go code is embedded shallowly: external collaborators (the paho MQTT
  client, the message-bus client, the TLS certificate loader, the core
  store client behind MarkAsPushed) are parameters of the embedded
  functions, and each embedded operation returns, next to the value the
  Go function returns, the list of externally visible effects it
  performed, in order.
-/

namespace AppFunctionsSDK

/-! ## MqttConfig (transforms package) -/

/-- MqttConfig contains mqtt client parameters.
The Go field qos has type byte; it is modelled as a natural number
(the code performs no arithmetic on it). -/
structure MqttConfig where
  qos : Nat
  retain : Bool
  autoreconnect : Bool
deriving Repr, DecidableEq

/-- NewMqttConfig returns a new MqttConfig with default values:
qos 0, retain false, autoreconnect false. -/
def NewMqttConfig : MqttConfig :=
  { qos := 0, retain := false, autoreconnect := false }

/-- Body of SetRetain: the final state of the receiver the body ran on.
In Go the receiver is a value (a copy), so this result never reaches
the caller variable. -/
def MqttConfig.SetRetain (mqttConfig : MqttConfig) (retain : Bool) : MqttConfig :=
  { mqttConfig with retain := retain }

/-- Body of SetQos: the final state of the receiver the body ran on. -/
def MqttConfig.SetQos (mqttConfig : MqttConfig) (qos : Nat) : MqttConfig :=
  { mqttConfig with qos := qos }

/-- Body of SetAutoreconnect: the final state of the receiver the body ran on. -/
def MqttConfig.SetAutoreconnect (mqttConfig : MqttConfig) (reconnect : Bool) : MqttConfig :=
  { mqttConfig with autoreconnect := reconnect }

/-- One setter call made on a MqttConfig variable. -/
inductive SetterCall where
  | setRetain (retain : Bool)
  | setQos (qos : Nat)
  | setAutoreconnect (reconnect : Bool)
deriving Repr, DecidableEq

/-- Go semantics of calling a value-receiver setter on a variable holding
a MqttConfig: the method body runs on a copy of the value, the copy is
discarded when the call returns, and the caller variable is unchanged. -/
def callSetter (c : MqttConfig) (call : SetterCall) : MqttConfig :=
  match call with
  | .setRetain r => let _copy := c.SetRetain r; c
  | .setQos q => let _copy := c.SetQos q; c
  | .setAutoreconnect b => let _copy := c.SetAutoreconnect b; c

/-! ## Dynamic values and the send environment -/

/-- A Go interface value as far as MQTTSend can distinguish it:
the type assertion in the code tests for string only; a byte slice or
any other dynamic type falls through to the same branch. -/
inductive GoVal where
  | str (s : String)
  | bytes (b : List Nat)
  | other
deriving Repr, DecidableEq

/-- The error values MQTTSend can return (the Go function returns them
as its second result of type interface, holding an error). -/
inductive SendError where
  | noDataReceived
  | connectFailed (inner : String)
  | publishFailed (inner : String)
  | unexpectedType
deriving Repr, DecidableEq

/-- The message text of each error, as the Go code builds it. -/
def SendError.message : SendError → String
  | .noDataReceived => "No Data Received"
  | .connectFailed inner =>
      "Could not connect to mqtt server, drop event. Error: " ++ inner
  | .publishFailed inner => inner
  | .unexpectedType => "Unexpected type received"

/-- The externally relevant behavior of the paho client during one
MQTTSend call: whether IsConnected reports true, what error (if any) a
connect attempt resolves with, and what error (if any) a publish attempt
resolves with.  Token.Wait blocks until the attempt resolves and then
reports completion, so the token error is always consulted. -/
structure ClientState where
  isConnected : Bool
  connectError : Option String
  publishError : Option String
deriving Repr, DecidableEq

/-- Environment of one MQTTSend call: the client behavior and the result
of the MarkAsPushed call on the context (none = success). -/
structure SendEnv where
  client : ClientState
  markAsPushedError : Option String
deriving Repr, DecidableEq

/-- Externally visible effects of one MQTTSend call, in order. -/
inductive Effect where
  | connectAttempt
  | publishAttempt (topic : String) (qos : Nat) (retain : Bool) (payload : String)
  | markAsPushed
  | logInfo (msg : String)
  | logError (msg : String)
  | logTrace (msg : String)
deriving Repr, DecidableEq

/-- Tests whether an effect is a publish attempt. -/
def Effect.isPublishAttempt : Effect → Bool
  | .publishAttempt _ _ _ _ => true
  | _ => false

/-- Tests whether an effect is a connect attempt. -/
def Effect.isConnectAttempt : Effect → Bool
  | .connectAttempt => true
  | _ => false

/-- Tests whether an effect is a MarkAsPushed invocation. -/
def Effect.isMarkAsPushed : Effect → Bool
  | .markAsPushed => true
  | _ => false

/-! ## TLS configuration and client options (NewMQTTSender) -/

/-- A loaded x509 client certificate/key pair (abstract to this code;
identified by the files it was loaded from). -/
structure TlsCertificate where
  certFile : String
  keyFile : String
deriving Repr, DecidableEq

/-- The tls.Config the constructor builds: client CAs nil, verification
skipped unconditionally, the one loaded certificate. -/
structure TlsConfigVal where
  clientCAsNil : Bool
  insecureSkipVerify : Bool
  certificates : List TlsCertificate
deriving Repr, DecidableEq

/-- The MQTT client options NewMQTTSender accumulates before creating
the client. -/
structure ClientOptions where
  brokers : List String
  clientID : String
  username : String
  password : String
  autoReconnect : Bool
  tlsConfig : Option TlsConfigVal
deriving Repr, DecidableEq

/-- The sender object NewMQTTSender builds: the created client is
represented by the options it was created from. -/
structure MQTTSender where
  clientOptions : ClientOptions
  topic : String
  opts : MqttConfig
deriving Repr, DecidableEq

/-- The Addressable record naming the broker. The Go Port field is int. -/
structure Addressable where
  Protocol : String
  Address : String
  Port : Int
  Path : String
  Publisher : String
  User : String
  Password : String
  Topic : String
deriving Repr, DecidableEq

/-- strings.ToLower, modelled characterwise (ASCII lowering, which is
all the protocol strings involved exercise). -/
def toLowerStr (s : String) : String :=
  String.mk (s.data.map Char.toLower)

/-- The broker endpoint string the constructor derives:
lowercased protocol, then "://", address, ":", decimal port, path. -/
def brokerEndpoint (addr : Addressable) : String :=
  toLowerStr addr.Protocol ++ "://" ++ addr.Address ++ ":" ++ toString addr.Port ++ addr.Path

/-- NewMQTTSender. The filesystem read performed by tls.LoadX509KeyPair
is a parameter: loadX509KeyPair certFile key is its outcome.  For a
TLS-bearing protocol (tcps, ssl, tls after lowercasing) a load failure
returns none (the Go code returns nil); otherwise the certificate loader
is never consulted and a sender is returned. -/
def NewMQTTSender (addr : Addressable) (certFile : String) (key : String)
    (loadX509KeyPair : String → String → Except String TlsCertificate)
    (config : MqttConfig) : Option MQTTSender :=
  let protocol := toLowerStr addr.Protocol
  let broker := brokerEndpoint addr
  let opts : ClientOptions :=
    { brokers := [broker]
      clientID := addr.Publisher
      username := addr.User
      password := addr.Password
      autoReconnect := config.autoreconnect
      tlsConfig := none }
  if protocol = "tcps" ∨ protocol = "ssl" ∨ protocol = "tls" then
    match loadX509KeyPair certFile key with
    | .error _ => none
    | .ok cert =>
        let opts :=
          { opts with
              tlsConfig := some
                { clientCAsNil := true
                  insecureSkipVerify := true
                  certificates := [cert] } }
        some { clientOptions := opts, topic := addr.Topic, opts := config }
  else
    some { clientOptions := opts, topic := addr.Topic, opts := config }

/-! ## MQTTSend -/

/-- MQTTSend: returns the pair the Go function returns (continue flag,
optional error) together with the ordered list of effects performed.
Mirrors the Go control flow: no-data check, connect-if-not-connected,
string type assertion, publish, best-effort MarkAsPushed. -/
def MQTTSend (sender : MQTTSender) (env : SendEnv) (params : List GoVal) :
    (Bool × Option SendError) × List Effect :=
  if params.length < 1 then
    ((false, some .noDataReceived), [])
  else
    let connectEffects :=
      if env.client.isConnected then ([] : List Effect)
      else [.logInfo "Connecting to mqtt server", .connectAttempt]
    if ¬ env.client.isConnected ∧ env.client.connectError.isSome then
      ((false, some (.connectFailed (env.client.connectError.getD ""))),
        connectEffects)
    else
      let connectEffects :=
        connectEffects ++
          if env.client.isConnected then ([] : List Effect)
          else [.logInfo "Connected to mqtt server"]
      match params.head? with
      | some (.str data) =>
          let publishEffect :=
            Effect.publishAttempt sender.topic sender.opts.qos sender.opts.retain data
          match env.client.publishError with
          | some e =>
              ((false, some (.publishFailed e)), connectEffects ++ [publishEffect])
          | none =>
              let markEffects :=
                [Effect.markAsPushed] ++
                  match env.markAsPushedError with
                  | some e => [Effect.logError e]
                  | none => []
              ((true, none),
                connectEffects ++
                  [publishEffect,
                    .logInfo "Sent data to MQTT Broker",
                    .logTrace "Data exported"] ++
                  markEffects)
      | _ =>
          ((false, some .unexpectedType), connectEffects)

/-! ## Message-bus subscription trigger (messagebus package) -/

/-- The binding part of the trigger configuration. -/
structure BindingInfo where
  SubscribeTopic : String
  PublishTopic : String
deriving Repr, DecidableEq

/-- The trigger configuration fields the embedded code reads. -/
structure TriggerConfiguration where
  Binding : BindingInfo
deriving Repr, DecidableEq

/-- clients.ContentTypeJSON from go-mod-core-contracts. -/
def ContentTypeJSON : String := "application/json"

/-- A bus message envelope: correlation id, payload bytes, content type. -/
structure MessageEnvelope where
  CorrelationID : String
  Payload : List Nat
  ContentType : String
deriving Repr, DecidableEq

/-- The environment of one call of the trigger initializer: the outcome
of messaging.NewMessageClient (none = a client was created) and the
value the Subscribe call returns.  The Go code discards the result of
the Subscribe call, so the embedded initializer does too. -/
structure InitEnv where
  newMessageClientError : Option String
  subscribeResult : Option String
deriving Repr, DecidableEq

/-- Effects of the trigger initializer. -/
inductive InitEffect where
  | logInfo (msg : String)
  | subscribeCall (topics : List String)
  | workerStarted
deriving Repr, DecidableEq

/-- The Initialize method of the message-bus Trigger: logs, creates the
message client (returning the creation error to the caller when it
fails), subscribes to the configured topic with a fresh error channel
(the return value of the Subscribe call is discarded, exactly as at the
call site), and starts the worker goroutine. -/
def triggerInit (cfg : TriggerConfiguration) (env : InitEnv) :
    Option String × List InitEffect :=
  let banner :=
    InitEffect.logInfo
      ("Initializing Message Bus Trigger. Subscribing to topic: " ++
        cfg.Binding.SubscribeTopic ++ ", Publish Topic: " ++ cfg.Binding.PublishTopic)
  match env.newMessageClientError with
  | some e => (some e, [banner])
  | none =>
      let _discarded := env.subscribeResult
      (none,
        [banner,
          .subscribeCall [cfg.Binding.SubscribeTopic],
          .workerStarted])

/-- The per-event execution context fields the trigger reads and
ProcessEvent writes. -/
structure AppContext where
  CorrelationID : String
  OutputData : Option (List Nat)
deriving Repr, DecidableEq

/-- Modelled from the spec: runtime.GolangRuntime.ProcessEvent is not
under src (only this caller is).  Per the spec, the side effects of a
pipeline run land in the execution context, whose output slot is the
sole sanctioned channel back to the trigger; the run is therefore
abstracted as the optional output value it writes into that slot. -/
def processEvent (ctx : AppContext) (output : Option (List Nat)) : AppContext :=
  { ctx with OutputData := output }

/-- One arrival as the worker sees it, together with the environment
choices made during its handling: what the pipeline run writes into the
output slot, and how the bus client answers the publish call (none =
publish succeeded). -/
structure Arrival where
  msg : MessageEnvelope
  processOutput : Option (List Nat)
  publishResult : Option String
deriving Repr, DecidableEq

/-- One ready input of the select statement of the worker loop: either
an error read from the error-notification channel or a message from the
subscription channel. -/
inductive WorkerInput where
  | busError (e : String)
  | arrival (a : Arrival)
deriving Repr, DecidableEq

/-- Effects of the worker loop. -/
inductive TriggerEffect where
  | logError (msg : String)
  | logTrace (msg : String)
  | published (envelope : MessageEnvelope) (topic : String)
deriving Repr, DecidableEq

/-- Tests whether a worker effect is an outbound publish. -/
def TriggerEffect.isPublished : TriggerEffect → Bool
  | .published _ _ => true
  | _ => false

/-- One iteration of the select loop of the worker goroutine: the
effects it performs and the value of the receiveMessage flag after the
iteration (the loop body never assigns the flag, so it stays true). -/
def workerIteration (cfg : TriggerConfiguration) (inp : WorkerInput) :
    List TriggerEffect × Bool :=
  match inp with
  | .busError e =>
      ([.logError ("Failed to receive ZMQ Message, " ++ e)], true)
  | .arrival a =>
      let ctx : AppContext := { CorrelationID := a.msg.CorrelationID, OutputData := none }
      let ctx := processEvent ctx a.processOutput
      let received := TriggerEffect.logTrace "Received message from bus"
      match ctx.OutputData with
      | none => ([received], true)
      | some out =>
          let outputEnvelope : MessageEnvelope :=
            { CorrelationID := ctx.CorrelationID
              Payload := out
              ContentType := ContentTypeJSON }
          let failLog :=
            match a.publishResult with
            | some e => [TriggerEffect.logError ("Failed to publish Message to bus, " ++ e)]
            | none => []
          ([received, .published outputEnvelope cfg.Binding.PublishTopic] ++
            failLog ++ [.logTrace "Published message to bus"], true)

/-- The worker loop run over a finite schedule of ready inputs: each
iteration is taken while the receiveMessage flag is true. -/
def serviceQueues (cfg : TriggerConfiguration) : List WorkerInput → List TriggerEffect
  | [] => []
  | inp :: rest =>
      let step := workerIteration cfg inp
      step.1 ++ (if step.2 then serviceQueues cfg rest else [])

/-- Tests whether a dynamic value is a Go string. -/
def GoVal.isStr : GoVal → Bool
  | .str _ => true
  | _ => false

/-! ## Theorems -/

/-- Helper: whenever NewMQTTSender yields a sender, that sender carries
the derived broker endpoint as its sole broker, the topic of the
address record, and the configuration it was given. -/
theorem newMQTTSender_fields
    (addr : Addressable) (certFile key : String)
    (load : String → String → Except String TlsCertificate) (config : MqttConfig)
    (s : MQTTSender)
    (h : NewMQTTSender addr certFile key load config = some s) :
    s.clientOptions.brokers = [brokerEndpoint addr] ∧
      s.topic = addr.Topic ∧ s.opts = config := by
  simp only [NewMQTTSender] at h
  by_cases hp : (toLowerStr addr.Protocol = "tcps" ∨ toLowerStr addr.Protocol = "ssl" ∨
      toLowerStr addr.Protocol = "tls")
  · rw [if_pos hp] at h
    cases hl : load certFile key with
    | error e => rw [hl] at h; cases h
    | ok cert =>
        rw [hl] at h
        injection h with h
        subst h
        exact ⟨rfl, rfl, rfl⟩
  · rw [if_neg hp] at h
    injection h with h
    subst h
    exact ⟨rfl, rfl, rfl⟩

/-- C4: a call of MQTTSend with zero input values returns the pair
(false, the no-data error) and performs no effect at all — in
particular no connect attempt; the message of that error, lowercased,
is "no data received". -/
theorem mqttSend_no_input_rejected (sender : MQTTSender) (env : SendEnv) :
    MQTTSend sender env [] = ((false, some .noDataReceived), []) ∧
    toLowerStr SendError.noDataReceived.message = "no data received" := by
  exact ⟨rfl, by decide⟩

/-- C1: for a call of MQTTSend whose first input is a string and which
reaches the publish attempt (the client is connected, or the connect
attempt succeeds): when the publish attempt succeeds, MarkAsPushed is
invoked exactly once and the call returns (true, nil) — whatever the
MarkAsPushed outcome, since the environment is universally quantified —
and when the publish attempt fails, MarkAsPushed is invoked zero times
and the call returns (false, the publish error). -/
theorem mqttSend_markAsPushed_iff_publish_success
    (sender : MQTTSender) (env : SendEnv) (s : String) (rest : List GoVal)
    (hconn : env.client.isConnected = true ∨ env.client.connectError = none) :
    (env.client.publishError = none →
      (MQTTSend sender env (.str s :: rest)).2.countP Effect.isMarkAsPushed = 1 ∧
        (MQTTSend sender env (.str s :: rest)).1 = (true, none)) ∧
    (∀ e, env.client.publishError = some e →
      (MQTTSend sender env (.str s :: rest)).2.countP Effect.isMarkAsPushed = 0 ∧
        (MQTTSend sender env (.str s :: rest)).1 = (false, some (.publishFailed e))) := by
  obtain ⟨⟨ic, ce, pe⟩, mk⟩ := env
  simp only at hconn
  constructor
  · intro hpe
    subst hpe
    rcases hconn with h | h
    · subst h
      cases ce <;> cases mk <;>
        simp [MQTTSend, Effect.isMarkAsPushed, List.countP_cons, List.countP_append]
    · subst h
      cases ic <;> cases mk <;>
        simp [MQTTSend, Effect.isMarkAsPushed, List.countP_cons, List.countP_append]
  · intro e hpe
    subst hpe
    rcases hconn with h | h
    · subst h
      cases ce <;> cases mk <;>
        simp [MQTTSend, Effect.isMarkAsPushed, List.countP_cons, List.countP_append]
    · subst h
      cases ic <;> cases mk <;>
        simp [MQTTSend, Effect.isMarkAsPushed, List.countP_cons, List.countP_append]

/-- Witness for C1 at a concrete input. -/
theorem mqttSend_markAsPushed_iff_publish_success_witness :
    ((⟨⟨true, none, none⟩, some "store down"⟩ : SendEnv).client.isConnected = true ∨
        (⟨⟨true, none, none⟩, some "store down"⟩ : SendEnv).client.connectError = none) ∧
      ((MQTTSend ⟨⟨["tcp://h:1883"], "id", "u", "p", false, none⟩, "t", NewMqttConfig⟩
            ⟨⟨true, none, none⟩, some "store down"⟩
            [.str "payload"]).2.countP Effect.isMarkAsPushed = 1 ∧
        (MQTTSend ⟨⟨["tcp://h:1883"], "id", "u", "p", false, none⟩, "t", NewMqttConfig⟩
            ⟨⟨true, none, none⟩, some "store down"⟩
            [.str "payload"]).1 = (true, none)) :=
  ⟨Or.inl rfl,
    (mqttSend_markAsPushed_iff_publish_success
        ⟨⟨["tcp://h:1883"], "id", "u", "p", false, none⟩, "t", NewMqttConfig⟩
        ⟨⟨true, none, none⟩, some "store down"⟩ "payload" [] (Or.inl rfl)).1 rfl⟩

/-- C3: for a call of MQTTSend with at least one input value whose
client reports not-connected, a connect attempt occurs strictly before
any publish attempt (it lies in the longest initial segment of the
effect list free of publish attempts), and if the connect attempt
fails then no publish is
attempted at all and the call returns (false, an error built from the
connect failure). -/
theorem mqttSend_connect_before_publish
    (sender : MQTTSender) (env : SendEnv) (v : GoVal) (rest : List GoVal)
    (hnc : env.client.isConnected = false) :
    Effect.connectAttempt ∈
      ((MQTTSend sender env (v :: rest)).2.takeWhile fun ef => !ef.isPublishAttempt) ∧
    (∀ e, env.client.connectError = some e →
      (MQTTSend sender env (v :: rest)).1 = (false, some (.connectFailed e)) ∧
        (MQTTSend sender env (v :: rest)).2.countP Effect.isPublishAttempt = 0) := by
  obtain ⟨⟨ic, ce, pe⟩, mk⟩ := env
  simp only at hnc
  subst hnc
  constructor
  · cases ce <;> cases v <;> cases pe <;> cases mk <;>
      simp [MQTTSend, Effect.isPublishAttempt, List.takeWhile]
  · intro e he
    simp only at he
    subst he
    cases v <;>
      simp [MQTTSend, Effect.isPublishAttempt, List.countP_cons]

/-- Witness for C3 at a concrete input. -/
theorem mqttSend_connect_before_publish_witness :
    (⟨⟨false, some "connection refused", none⟩, none⟩ : SendEnv).client.isConnected
        = false ∧
      (Effect.connectAttempt ∈
        ((MQTTSend ⟨⟨["tcp://h:1883"], "id", "u", "p", false, none⟩, "t", NewMqttConfig⟩
              ⟨⟨false, some "connection refused", none⟩, none⟩
              [.str "payload"]).2.takeWhile fun ef => !ef.isPublishAttempt) ∧
        (∀ e,
          (⟨⟨false, some "connection refused", none⟩, none⟩ : SendEnv).client.connectError
              = some e →
          (MQTTSend ⟨⟨["tcp://h:1883"], "id", "u", "p", false, none⟩, "t", NewMqttConfig⟩
              ⟨⟨false, some "connection refused", none⟩, none⟩
              [.str "payload"]).1 = (false, some (.connectFailed e)) ∧
            (MQTTSend ⟨⟨["tcp://h:1883"], "id", "u", "p", false, none⟩, "t", NewMqttConfig⟩
                ⟨⟨false, some "connection refused", none⟩, none⟩
                [.str "payload"]).2.countP Effect.isPublishAttempt = 0)) :=
  ⟨rfl,
    mqttSend_connect_before_publish
      ⟨⟨["tcp://h:1883"], "id", "u", "p", false, none⟩, "t", NewMqttConfig⟩
      ⟨⟨false, some "connection refused", none⟩, none⟩
      (.str "payload") [] rfl⟩

/-- C5 counterexample: with the client already connected, a call of
MQTTSend whose first input is a byte payload is rejected with the
unexpected-type error — the type assertion accepts only strings, so a
byte payload IS rejected on type grounds, contrary to the claim. -/
theorem mqttSend_bytes_rejected :
    (MQTTSend ⟨⟨["tcp://h:1883"], "id", "u", "p", false, none⟩, "t", NewMqttConfig⟩
        ⟨⟨true, none, none⟩, none⟩ [.bytes [1, 2, 3]]).1 =
      (false, some .unexpectedType) := by
  decide

/-- C5 amended: for a call of MQTTSend that reaches the type check (the
client is connected, or the connect attempt succeeds), a first input
that is not a string is rejected with (false, the unexpected-type
error) and no publish is attempted — this includes byte payloads —
while a call whose first input is a string is never rejected with the
unexpected-type error. -/
theorem mqttSend_type_check
    (sender : MQTTSender) (env : SendEnv) (v : GoVal) (rest : List GoVal)
    (hconn : env.client.isConnected = true ∨ env.client.connectError = none) :
    (v.isStr = false →
      (MQTTSend sender env (v :: rest)).1 = (false, some .unexpectedType) ∧
        (MQTTSend sender env (v :: rest)).2.countP Effect.isPublishAttempt = 0) ∧
    (∀ s, (MQTTSend sender env (.str s :: rest)).1.2 ≠ some .unexpectedType) := by
  obtain ⟨⟨ic, ce, pe⟩, mk⟩ := env
  simp only at hconn
  constructor
  · intro hv
    cases v with
    | str s => exact absurd hv (by simp [GoVal.isStr])
    | bytes b =>
        rcases hconn with h | h
        · subst h
          simp [MQTTSend, Effect.isPublishAttempt, List.countP_cons]
        · subst h
          cases ic <;> simp [MQTTSend, Effect.isPublishAttempt, List.countP_cons]
    | other =>
        rcases hconn with h | h
        · subst h
          simp [MQTTSend, Effect.isPublishAttempt, List.countP_cons]
        · subst h
          cases ic <;> simp [MQTTSend, Effect.isPublishAttempt, List.countP_cons]
  · intro s
    rcases hconn with h | h
    · subst h
      cases ce <;> cases pe <;> cases mk <;> simp [MQTTSend]
    · subst h
      cases ic <;> cases pe <;> cases mk <;> simp [MQTTSend]

/-- Witness for the amended C5 at a concrete input. -/
theorem mqttSend_type_check_witness :
    ((⟨⟨true, none, none⟩, none⟩ : SendEnv).client.isConnected = true ∨
        (⟨⟨true, none, none⟩, none⟩ : SendEnv).client.connectError = none) ∧
      ((MQTTSend ⟨⟨["tcp://h:1883"], "id", "u", "p", false, none⟩, "t", NewMqttConfig⟩
            ⟨⟨true, none, none⟩, none⟩ [.bytes [1, 2, 3]]).1 =
          (false, some .unexpectedType) ∧
        (MQTTSend ⟨⟨["tcp://h:1883"], "id", "u", "p", false, none⟩, "t", NewMqttConfig⟩
            ⟨⟨true, none, none⟩, none⟩ [.bytes [1, 2, 3]]).2.countP
            Effect.isPublishAttempt = 0) :=
  ⟨Or.inl rfl,
    (mqttSend_type_check
        ⟨⟨["tcp://h:1883"], "id", "u", "p", false, none⟩, "t", NewMqttConfig⟩
        ⟨⟨true, none, none⟩, none⟩ (.bytes [1, 2, 3]) [] (Or.inl rfl)).1 rfl⟩

/-- C2 counterexample: a run of the trigger initializer in which the
message client is created but the Subscribe call itself fails returns
no error at all — the code discards the result of the Subscribe call,
so this subscription-setup failure is neither returned to the caller
nor logged, refuting the claim as stated. -/
theorem triggerInit_subscribe_error_discarded :
    (triggerInit ⟨⟨"sub", "pub"⟩⟩ ⟨none, some "subscribe failed"⟩).1 = none := by
  decide

/-- C2 amended: the trigger initializer returns an error exactly when
creating the message-bus client fails (and it returns that error); an
error produced by the Subscribe call itself is discarded — when client
creation succeeds the initializer returns no error, whatever the
Subscribe call returned. -/
theorem triggerInit_client_error_propagation
    (cfg : TriggerConfiguration) (env : InitEnv) :
    (∀ e, env.newMessageClientError = some e → (triggerInit cfg env).1 = some e) ∧
      (env.newMessageClientError = none → (triggerInit cfg env).1 = none) := by
  obtain ⟨nce, sub⟩ := env
  constructor
  · intro e h
    simp only at h
    subst h
    simp [triggerInit]
  · intro h
    simp only at h
    subst h
    simp [triggerInit]

/-- Witness for the amended C2 at concrete inputs. -/
theorem triggerInit_client_error_propagation_witness :
    (⟨some "no broker", none⟩ : InitEnv).newMessageClientError = some "no broker" ∧
      (triggerInit ⟨⟨"sub", "pub"⟩⟩ ⟨some "no broker", none⟩).1 = some "no broker" :=
  ⟨rfl,
    (triggerInit_client_error_propagation ⟨⟨"sub", "pub"⟩⟩
        ⟨some "no broker", none⟩).1 "no broker" rfl⟩

/-- C6: for an arrival handled by the worker loop, if the pipeline run
set the output slot then exactly one outbound envelope is published, to
the configured publish topic, carrying the correlation id of the
arrival, the output payload and the JSON content type; if the output
slot stayed unset, nothing is published. -/
theorem trigger_arrival_publishes_output
    (cfg : TriggerConfiguration) (a : Arrival) :
    (∀ out, a.processOutput = some out →
      (workerIteration cfg (.arrival a)).1.countP TriggerEffect.isPublished = 1 ∧
        TriggerEffect.published
            { CorrelationID := a.msg.CorrelationID, Payload := out,
              ContentType := ContentTypeJSON }
            cfg.Binding.PublishTopic ∈ (workerIteration cfg (.arrival a)).1) ∧
    (a.processOutput = none →
      (workerIteration cfg (.arrival a)).1.countP TriggerEffect.isPublished = 0) := by
  obtain ⟨msg, po, pr⟩ := a
  constructor
  · intro out hout
    simp only at hout
    subst hout
    cases pr <;>
      simp [workerIteration, processEvent, TriggerEffect.isPublished,
        List.countP_cons, List.countP_append]
  · intro hnone
    simp only at hnone
    subst hnone
    simp [workerIteration, processEvent, TriggerEffect.isPublished, List.countP_cons]

/-- Witness for C6: an arrival with correlation id "abc-123" whose run
produces an output yields exactly one published envelope carrying
correlation id "abc-123". -/
theorem trigger_arrival_publishes_output_witness :
    (⟨⟨"abc-123", [7], ContentTypeJSON⟩, some [1, 2], none⟩ : Arrival).processOutput
        = some [1, 2] ∧
      ((workerIteration ⟨⟨"sub", "pub"⟩⟩
            (.arrival ⟨⟨"abc-123", [7], ContentTypeJSON⟩, some [1, 2], none⟩)).1.countP
          TriggerEffect.isPublished = 1 ∧
        TriggerEffect.published
            { CorrelationID := "abc-123", Payload := [1, 2],
              ContentType := ContentTypeJSON } "pub" ∈
          (workerIteration ⟨⟨"sub", "pub"⟩⟩
            (.arrival ⟨⟨"abc-123", [7], ContentTypeJSON⟩, some [1, 2], none⟩)).1) :=
  ⟨rfl,
    (trigger_arrival_publishes_output ⟨⟨"sub", "pub"⟩⟩
        ⟨⟨"abc-123", [7], ContentTypeJSON⟩, some [1, 2], none⟩).1 [1, 2] rfl⟩

/-- C9: the worker loop never exits because of a per-arrival failure:
over any finite schedule of ready inputs, the loop handles every input
(its effects are the concatenation of the per-iteration effects), the
receiveMessage flag stays true after every iteration, an error read
from the error-notification channel produces exactly one error log and
nothing else, and an arrival whose publish fails is still published
exactly once (no retry, no requeue) with the failure merely logged. -/
theorem worker_survives_per_arrival_failures
    (cfg : TriggerConfiguration) (inputs : List WorkerInput) :
    serviceQueues cfg inputs =
        inputs.flatMap (fun inp => (workerIteration cfg inp).1) ∧
    (∀ inp, (workerIteration cfg inp).2 = true) ∧
    (∀ e, (workerIteration cfg (.busError e)).1 =
        [.logError ("Failed to receive ZMQ Message, " ++ e)]) ∧
    (∀ a e out, a.publishResult = some e → a.processOutput = some out →
      (workerIteration cfg (.arrival a)).1.countP TriggerEffect.isPublished = 1 ∧
        TriggerEffect.logError ("Failed to publish Message to bus, " ++ e) ∈
          (workerIteration cfg (.arrival a)).1) := by
  refine ⟨?_, ?_, ?_, ?_⟩
  · induction inputs with
    | nil => simp [serviceQueues]
    | cons inp rest ih =>
        have hflag : (workerIteration cfg inp).2 = true := by
          rcases inp with e | ⟨m, po, pr⟩
          · simp [workerIteration]
          · cases po <;> cases pr <;> simp [workerIteration, processEvent]
        simp [serviceQueues, hflag, ih]
  · intro inp
    rcases inp with e | ⟨m, po, pr⟩
    · simp [workerIteration]
    · cases po <;> cases pr <;> simp [workerIteration, processEvent]
  · intro e
    simp [workerIteration]
  · intro a e out hpr hpo
    obtain ⟨m, po, pr⟩ := a
    simp only at hpr hpo
    subst hpr
    subst hpo
    simp [workerIteration, processEvent, TriggerEffect.isPublished,
      List.countP_cons, List.countP_append]

/-- Witness for C9 at a concrete input. -/
theorem worker_survives_per_arrival_failures_witness :
    (⟨⟨"cid", [7], ContentTypeJSON⟩, some [5], some "boom"⟩ : Arrival).publishResult
        = some "boom" ∧
      ((workerIteration ⟨⟨"sub", "pub"⟩⟩
            (.arrival ⟨⟨"cid", [7], ContentTypeJSON⟩, some [5], some "boom"⟩)).1.countP
          TriggerEffect.isPublished = 1 ∧
        TriggerEffect.logError "Failed to publish Message to bus, boom" ∈
          (workerIteration ⟨⟨"sub", "pub"⟩⟩
            (.arrival ⟨⟨"cid", [7], ContentTypeJSON⟩, some [5], some "boom"⟩)).1) :=
  ⟨rfl,
    (worker_survives_per_arrival_failures ⟨⟨"sub", "pub"⟩⟩ []).2.2.2
      ⟨⟨"cid", [7], ContentTypeJSON⟩, some [5], some "boom"⟩ "boom" [5] rfl rfl⟩

/-- C7: when the lowercased protocol is one of tcps, ssl, tls and the
certificate/key pair fails to load, NewMQTTSender yields no sender at
all; for any other protocol the certificate loader is never consulted
(the result does not depend on it) and a sender is always produced. -/
theorem newMQTTSender_tls_failure_aborts
    (addr : Addressable) (certFile key : String)
    (load : String → String → Except String TlsCertificate) (config : MqttConfig) :
    ((toLowerStr addr.Protocol = "tcps" ∨ toLowerStr addr.Protocol = "ssl" ∨
        toLowerStr addr.Protocol = "tls") →
      ∀ e, load certFile key = .error e →
        NewMQTTSender addr certFile key load config = none) ∧
    (¬(toLowerStr addr.Protocol = "tcps" ∨ toLowerStr addr.Protocol = "ssl" ∨
        toLowerStr addr.Protocol = "tls") →
      (NewMQTTSender addr certFile key load config).isSome = true ∧
        ∀ load2, NewMQTTSender addr certFile key load2 config =
          NewMQTTSender addr certFile key load config) := by
  constructor
  · intro hp e he
    simp only [NewMQTTSender]
    rw [if_pos hp, he]
  · intro hp
    constructor
    · simp only [NewMQTTSender]
      rw [if_neg hp]
      rfl
    · intro load2
      simp only [NewMQTTSender]
      rw [if_neg hp, if_neg hp]

/-- Witness for C7 at a concrete input. -/
theorem newMQTTSender_tls_failure_aborts_witness :
    (toLowerStr (Addressable.mk "tcps" "1.2.3.4" 8883 "" "pub" "u" "pw" "top").Protocol
          = "tcps" ∨
        toLowerStr (Addressable.mk "tcps" "1.2.3.4" 8883 "" "pub" "u" "pw" "top").Protocol
          = "ssl" ∨
        toLowerStr (Addressable.mk "tcps" "1.2.3.4" 8883 "" "pub" "u" "pw" "top").Protocol
          = "tls") ∧
      (fun _ _ => (.error "bad cert" : Except String TlsCertificate)) "cf" "k"
          = .error "bad cert" ∧
      NewMQTTSender (Addressable.mk "tcps" "1.2.3.4" 8883 "" "pub" "u" "pw" "top")
          "cf" "k" (fun _ _ => .error "bad cert") NewMqttConfig = none :=
  ⟨Or.inl (by decide), rfl,
    (newMQTTSender_tls_failure_aborts
        (Addressable.mk "tcps" "1.2.3.4" 8883 "" "pub" "u" "pw" "top") "cf" "k"
        (fun _ _ => .error "bad cert") NewMqttConfig).1
      (Or.inl (by decide)) "bad cert" rfl⟩

/-- C8: every sender NewMQTTSender produces carries, as its connection
endpoint, the string lowercase(protocol) ++ "://" ++ address ++ ":" ++
port ++ path; in particular the record with protocol "tcp", address
"1.2.3.4", port 1883 and empty path derives "tcp://1.2.3.4:1883". -/
theorem brokerEndpoint_derivation
    (addr : Addressable) (certFile key : String)
    (load : String → String → Except String TlsCertificate) (config : MqttConfig)
    (s : MQTTSender)
    (h : NewMQTTSender addr certFile key load config = some s) :
    s.clientOptions.brokers =
        [toLowerStr addr.Protocol ++ "://" ++ addr.Address ++ ":" ++
          toString addr.Port ++ addr.Path] ∧
      brokerEndpoint (Addressable.mk "tcp" "1.2.3.4" 1883 "" "" "" "" "")
          = "tcp://1.2.3.4:1883" := by
  refine ⟨?_, by decide⟩
  have hb := (newMQTTSender_fields addr certFile key load config s h).1
  rw [hb]
  rfl

/-- Witness for C8 at a concrete input. -/
theorem brokerEndpoint_derivation_witness :
    NewMQTTSender (Addressable.mk "tcp" "1.2.3.4" 1883 "" "pub" "u" "pw" "top")
        "cf" "k" (fun _ _ => .error "unused") NewMqttConfig =
      some
        (MQTTSender.mk
          (ClientOptions.mk ["tcp://1.2.3.4:1883"] "pub" "u" "pw" false none)
          "top" NewMqttConfig) ∧
      ((MQTTSender.mk
            (ClientOptions.mk ["tcp://1.2.3.4:1883"] "pub" "u" "pw" false none)
            "top" NewMqttConfig).clientOptions.brokers =
          [toLowerStr (Addressable.mk "tcp" "1.2.3.4" 1883 "" "pub" "u" "pw" "top").Protocol
            ++ "://" ++ (Addressable.mk "tcp" "1.2.3.4" 1883 "" "pub" "u" "pw" "top").Address
            ++ ":" ++ toString (Addressable.mk "tcp" "1.2.3.4" 1883 "" "pub" "u" "pw" "top").Port
            ++ (Addressable.mk "tcp" "1.2.3.4" 1883 "" "pub" "u" "pw" "top").Path] ∧
        brokerEndpoint (Addressable.mk "tcp" "1.2.3.4" 1883 "" "" "" "" "")
          = "tcp://1.2.3.4:1883") :=
  ⟨by decide,
    brokerEndpoint_derivation (Addressable.mk "tcp" "1.2.3.4" 1883 "" "pub" "u" "pw" "top")
      "cf" "k" (fun _ _ => .error "unused") NewMqttConfig
      (MQTTSender.mk
        (ClientOptions.mk ["tcp://1.2.3.4:1883"] "pub" "u" "pw" false none)
        "top" NewMqttConfig)
      (by decide)⟩

/-- C10: the MqttConfig setters have value receivers, so a setter call
leaves the caller's config unchanged; consequently any sequence of
setter calls on the config returned by NewMqttConfig leaves it at the
defaults, and a sender constructed from it carries qos 0, retain false,
autoreconnect false. -/
theorem mqttConfig_setters_no_effect
    (c : MqttConfig) (call : SetterCall) (calls : List SetterCall)
    (addr : Addressable) (certFile key : String)
    (load : String → String → Except String TlsCertificate) (s : MQTTSender)
    (h : NewMQTTSender addr certFile key load
        (List.foldl callSetter NewMqttConfig calls) = some s) :
    callSetter c call = c ∧
      List.foldl callSetter NewMqttConfig calls = NewMqttConfig ∧
      s.opts.qos = 0 ∧ s.opts.retain = false ∧ s.opts.autoreconnect = false := by
  have hid : ∀ (c0 : MqttConfig) (cl : SetterCall), callSetter c0 cl = c0 := by
    intro c0 cl
    cases cl <;> rfl
  have hfold : ∀ (cs : List SetterCall) (c0 : MqttConfig),
      List.foldl callSetter c0 cs = c0 := by
    intro cs
    induction cs with
    | nil => intro c0; rfl
    | cons cl rest ih => intro c0; rw [List.foldl_cons, hid c0 cl]; exact ih c0
  have hopts := (newMQTTSender_fields addr certFile key load _ s h).2.2
  rw [hfold calls NewMqttConfig] at hopts
  exact ⟨hid c call, hfold calls NewMqttConfig, by rw [hopts]; rfl,
    by rw [hopts]; rfl, by rw [hopts]; rfl⟩

/-- Witness for C10 at a concrete input. -/
theorem mqttConfig_setters_no_effect_witness :
    NewMQTTSender (Addressable.mk "tcp" "h" 1883 "" "pub" "u" "pw" "top") "cf" "k"
        (fun _ _ => .error "unused")
        (List.foldl callSetter NewMqttConfig
          [.setQos 2, .setRetain true, .setAutoreconnect true]) =
      some
        (MQTTSender.mk (ClientOptions.mk ["tcp://h:1883"] "pub" "u" "pw" false none)
          "top" NewMqttConfig) ∧
      (callSetter (MqttConfig.mk 1 true true) (.setQos 7) = MqttConfig.mk 1 true true ∧
        List.foldl callSetter NewMqttConfig
            [.setQos 2, .setRetain true, .setAutoreconnect true] = NewMqttConfig ∧
        (MQTTSender.mk (ClientOptions.mk ["tcp://h:1883"] "pub" "u" "pw" false none)
            "top" NewMqttConfig).opts.qos = 0 ∧
        (MQTTSender.mk (ClientOptions.mk ["tcp://h:1883"] "pub" "u" "pw" false none)
            "top" NewMqttConfig).opts.retain = false ∧
        (MQTTSender.mk (ClientOptions.mk ["tcp://h:1883"] "pub" "u" "pw" false none)
            "top" NewMqttConfig).opts.autoreconnect = false) :=
  ⟨by decide,
    mqttConfig_setters_no_effect (MqttConfig.mk 1 true true) (.setQos 7)
      [.setQos 2, .setRetain true, .setAutoreconnect true]
      (Addressable.mk "tcp" "h" 1883 "" "pub" "u" "pw" "top") "cf" "k"
      (fun _ _ => .error "unused")
      (MQTTSender.mk (ClientOptions.mk ["tcp://h:1883"] "pub" "u" "pw" false none)
        "top" NewMqttConfig)
      (by decide)⟩

end AppFunctionsSDK
